import Mathlib

/-!
Verification of `CSymmetricMatrix::GetEigen` (UVAtlas, `SymmetricMatrix.hpp`
and its successive revisions) against its natural-language specification.

The repository holds four revisions of the same static member function
`CSymmetricMatrix<TYPE>::GetEigen`:

* `src/UVAtlas/isochart/SymmetricMatrix.hpp` — validate arguments, then
  if `dwDimension == dwMaxRange` run the dense `Eigen::SelfAdjointEigenSolver`,
  otherwise run the iterative `Spectra::SymEigsSolver`; a Spectra rejection
  returns `false` directly.
* `src/unnamed/part_000` — validate, then always run the dense solver
  (no `epsilon` parameter).
* `src/unnamed/part_001` — validate, then for `dwMaxRange < dwDimension` try
  Spectra first and on rejection fall through to the dense solver.
* `src/unnamed/part_002` — validate, then `if (true)`: always the dense
  solver; the Spectra branch is dead code.

The two external eigensolvers are pure numerical collaborators; they are
modelled as oracles carried in a `Solvers` structure.  The dense solver
depends only on the (fixed) matrix; the Spectra solver is a function of the
parameters `GetEigen` passes to it, which makes the parameter-passing claims
directly statable.  Pointers are modelled by their only observable property
here, nullness; caller-supplied output buffers are explicit state threaded
through the call; and every solver invocation is recorded in a trace so that
claims of the form "solver X is (not) invoked" are statements about the
returned trace.  Scalars are modelled as `ℚ` (the numerics of `value_type`
are opaque to the orchestration logic being verified).
-/

/-- Output of the dense solver `Eigen::SelfAdjointEigenSolver` on the fixed
input matrix: an `info()` status (`success = true` iff
`Eigen::ComputationInfo::Success`), the vector `eigenvalues()` (by the
solver's contract: all `n` eigenvalues in increasing order) and the columns
of `eigenvectors()` (each column an eigenvector of length `n`, column `i`
paired with eigenvalue `i`). -/
structure DenseOutput where
  success : Bool
  values : List ℚ
  vectors : List (List ℚ)
deriving DecidableEq

/-- Parameters `GetEigen` hands to the iterative Spectra solver: the
constructor arguments `nev` (= `dwMaxRange`) and `ncv` (the subspace size),
and the `compute` arguments `maxIterations` and `epsilon`.  The sort rule is
`Spectra::LARGEST_ALGE` at both sites in every revision and is omitted. -/
structure SpectraParams where
  nev : Nat
  ncv : Nat
  maxIterations : Nat
  epsilon : ℚ
deriving DecidableEq

/-- Output of the iterative solver `Spectra::SymEigsSolver`: the return value
of `compute` (`numConverged`), the `info()` status (`infoSuccessful = true`
iff `Spectra::SUCCESSFUL`), and `eigenvalues()` / `eigenvectors()` columns. -/
structure SpectraOutput where
  infoSuccessful : Bool
  numConverged : Nat
  values : List ℚ
  vectors : List (List ℚ)
deriving DecidableEq

/-- The two external eigensolver collaborators, as oracles.  The dense solve
of the fixed matrix is one fixed output; the Spectra solve is a function of
the parameters the caller passes. -/
structure Solvers where
  dense : DenseOutput
  spectra : SpectraParams → SpectraOutput

/-- One recorded invocation of an external solver. -/
inductive SolverCall where
  | exact : SolverCall
  | spectra : SpectraParams → SolverCall
deriving DecidableEq

/-- Caller-supplied output storage: the `pEigenValue` buffer (mapped as
`eigenvalues`, `dwMaxRange × 1`) and the `pEigenVector` buffer (mapped as
`eigenvectors`, `dwDimension × dwMaxRange`, held as a list of columns). -/
structure Buffers where
  values : List ℚ
  vectors : List (List ℚ)
deriving DecidableEq

/-- Result of a `GetEigen` call: the returned `bool`, the final contents of
the caller-supplied buffers, and the trace of external solver invocations in
order. -/
structure GetEigenResult where
  success : Bool
  buffers : Buffers
  calls : List SolverCall
deriving DecidableEq

/-- The Spectra solver parameters every Spectra-invoking revision builds:
`nev = dwMaxRange`, `ncv = std::min(dwMaxRange * 2, dwDimension)`,
`maxIterations = 1000` (a `constexpr` local), and the `epsilon` argument. -/
def spectraParamsOf (dwDimension dwMaxRange : Nat) (epsilon : ℚ) : SpectraParams :=
  ⟨dwMaxRange, min (dwMaxRange * 2) dwDimension, 1000, epsilon⟩

/-- The default value of the `epsilon` parameter (`float epsilon = 1e-10`). -/
def epsilonDefault : ℚ := 1 / 10 ^ 10

/-- `GetEigen` of `src/UVAtlas/isochart/SymmetricMatrix.hpp`.  After the
argument checks: if `dwDimension == dwMaxRange`, run the dense solver and on
success write `eigenvalues().reverse()` and
`eigenvectors().rowwise().reverse()` (reversing each row of the matrix of
column-eigenvectors reverses the column order); otherwise run Spectra with
`spectraParamsOf` and accept iff
`!(numConverged < dwMaxRange || info() != SUCCESSFUL)`, writing the Spectra
output verbatim. -/
def getEigen_hpp (s : Solvers) (dwDimension dwMaxRange : Nat)
    (pMatrix pEigenValue pEigenVector : Bool) (buf : Buffers) (epsilon : ℚ) :
    GetEigenResult :=
  if pMatrix = false ∨ pEigenValue = false ∨ pEigenVector = false then
    ⟨false, buf, []⟩
  else if dwDimension < dwMaxRange ∨ dwMaxRange = 0 ∨ dwDimension = 0 then
    ⟨false, buf, []⟩
  else if dwDimension = dwMaxRange then
    if s.dense.success = false then
      ⟨false, buf, [SolverCall.exact]⟩
    else
      ⟨true, ⟨s.dense.values.reverse, s.dense.vectors.reverse⟩,
       [SolverCall.exact]⟩
  else
    if (s.spectra (spectraParamsOf dwDimension dwMaxRange epsilon)).numConverged
          < dwMaxRange ∨
        (s.spectra (spectraParamsOf dwDimension dwMaxRange epsilon)).infoSuccessful
          = false then
      ⟨false, buf, [SolverCall.spectra (spectraParamsOf dwDimension dwMaxRange epsilon)]⟩
    else
      ⟨true,
       ⟨(s.spectra (spectraParamsOf dwDimension dwMaxRange epsilon)).values,
        (s.spectra (spectraParamsOf dwDimension dwMaxRange epsilon)).vectors⟩,
       [SolverCall.spectra (spectraParamsOf dwDimension dwMaxRange epsilon)]⟩

/-- `GetEigen` of `src/unnamed/part_000`: after the argument checks, always
the dense solver; on success write `eigenvalues().reverse().head(dwMaxRange)`
and `eigenvectors().rowwise().reverse().leftCols(dwMaxRange)`. -/
def getEigen_part000 (s : Solvers) (dwDimension dwMaxRange : Nat)
    (pMatrix pEigenValue pEigenVector : Bool) (buf : Buffers) :
    GetEigenResult :=
  if pMatrix = false ∨ pEigenValue = false ∨ pEigenVector = false then
    ⟨false, buf, []⟩
  else if dwDimension < dwMaxRange ∨ dwMaxRange = 0 ∨ dwDimension = 0 then
    ⟨false, buf, []⟩
  else
    if s.dense.success = false then
      ⟨false, buf, [SolverCall.exact]⟩
    else
      ⟨true, ⟨s.dense.values.reverse.take dwMaxRange,
              s.dense.vectors.reverse.take dwMaxRange⟩,
       [SolverCall.exact]⟩

/-- The trailing dense-solver block of `src/unnamed/part_001` (reached when
the Spectra attempt was skipped or rejected): run the dense solver after the
calls already made (`pre`); on success write the reversed, truncated
spectrum, otherwise return `false` leaving the buffers untouched. -/
def denseBlock_part001 (s : Solvers) (dwMaxRange : Nat) (buf : Buffers)
    (pre : List SolverCall) : GetEigenResult :=
  if s.dense.success = true then
    ⟨true, ⟨s.dense.values.reverse.take dwMaxRange,
            s.dense.vectors.reverse.take dwMaxRange⟩,
     pre ++ [SolverCall.exact]⟩
  else
    ⟨false, buf, pre ++ [SolverCall.exact]⟩

/-- `GetEigen` of `src/unnamed/part_001`: after the argument checks, if
`dwMaxRange < dwDimension` try Spectra first and accept iff
`numConverged >= dwMaxRange && info() == SUCCESSFUL`; on rejection (or when
`dwMaxRange == dwDimension`) fall through to the dense-solver block. -/
def getEigen_part001 (s : Solvers) (dwDimension dwMaxRange : Nat)
    (pMatrix pEigenValue pEigenVector : Bool) (buf : Buffers) (epsilon : ℚ) :
    GetEigenResult :=
  if pMatrix = false ∨ pEigenValue = false ∨ pEigenVector = false then
    ⟨false, buf, []⟩
  else if dwDimension < dwMaxRange ∨ dwMaxRange = 0 ∨ dwDimension = 0 then
    ⟨false, buf, []⟩
  else if dwMaxRange < dwDimension then
    if dwMaxRange ≤
          (s.spectra (spectraParamsOf dwDimension dwMaxRange epsilon)).numConverged ∧
        (s.spectra (spectraParamsOf dwDimension dwMaxRange epsilon)).infoSuccessful
          = true then
      ⟨true,
       ⟨(s.spectra (spectraParamsOf dwDimension dwMaxRange epsilon)).values,
        (s.spectra (spectraParamsOf dwDimension dwMaxRange epsilon)).vectors⟩,
       [SolverCall.spectra (spectraParamsOf dwDimension dwMaxRange epsilon)]⟩
    else
      denseBlock_part001 s dwMaxRange buf
        [SolverCall.spectra (spectraParamsOf dwDimension dwMaxRange epsilon)]
  else
    denseBlock_part001 s dwMaxRange buf []

/-- `GetEigen` of `src/unnamed/part_002`: after the argument checks the
strategy branch reads `if (true)` ("Always use the Eigen solver for now"),
so the live code always runs the dense solver and writes
`eigenvalues().reverse().head(dwMaxRange)` /
`eigenvectors().rowwise().reverse().leftCols(dwMaxRange)`; the Spectra
branch is unreachable.  The `epsilon` parameter is accepted but unused. -/
def getEigen_part002 (s : Solvers) (dwDimension dwMaxRange : Nat)
    (pMatrix pEigenValue pEigenVector : Bool) (buf : Buffers) (_epsilon : ℚ) :
    GetEigenResult :=
  if pMatrix = false ∨ pEigenValue = false ∨ pEigenVector = false then
    ⟨false, buf, []⟩
  else if dwDimension < dwMaxRange ∨ dwMaxRange = 0 ∨ dwDimension = 0 then
    ⟨false, buf, []⟩
  else
    if s.dense.success = false then
      ⟨false, buf, [SolverCall.exact]⟩
    else
      ⟨true, ⟨s.dense.values.reverse.take dwMaxRange,
              s.dense.vectors.reverse.take dwMaxRange⟩,
       [SolverCall.exact]⟩

/-- Valid arguments in the sense of the spec: non-null pointers, `k ≥ 1`,
`k ≤ n` (whence `n ≥ 1`). -/
def validArgs (dwDimension dwMaxRange : Nat)
    (pMatrix pEigenValue pEigenVector : Bool) : Prop :=
  pMatrix = true ∧ pEigenValue = true ∧ pEigenVector = true ∧
    1 ≤ dwMaxRange ∧ dwMaxRange ≤ dwDimension

instance (n k : Nat) (a b c : Bool) : Decidable (validArgs n k a b c) := by
  unfold validArgs; infer_instance

/-! ### Concrete scenarios used by counterexamples and witnesses -/

/-- Preexisting, arbitrary contents of the caller's output buffers, used to
observe whether a call writes them. -/
def bufEx : Buffers := ⟨[100], [[100, 100]]⟩

/-- A 2×2 scenario: the iterative solver never converges
(`info() != SUCCESSFUL`, 0 converged pairs) while the dense solver succeeds
with ascending eigenvalues `[1, 2]` and the standard basis as columns. -/
def solversSpectraFail : Solvers :=
  ⟨⟨true, [1, 2], [[1, 0], [0, 1]]⟩, fun _ => ⟨false, 0, [], []⟩⟩

/-- A 2×2 scenario: the iterative solver converges with exactly one
eigenpair `(5, e₁)`; the dense solver also succeeds. -/
def solversSpectraOK : Solvers :=
  ⟨⟨true, [1, 2], [[1, 0], [0, 1]]⟩, fun _ => ⟨true, 1, [5], [[1, 0]]⟩⟩

/-- A 3×3 scenario: the iterative solver reports an overall success status
but only 1 converged eigenpair. -/
def solversFewConverged : Solvers :=
  ⟨⟨true, [1, 2, 3], [[1, 0, 0], [0, 1, 0], [0, 0, 1]]⟩,
   fun _ => ⟨true, 1, [7], [[1, 0, 0]]⟩⟩

/-- A 3×3 scenario: the iterative solver reports success with 2 converged
pairs whose eigenvalue list `[1, 5]` is NOT sorted descending (violating the
`LARGEST_ALGE` ordering contract). -/
def solversUnsorted : Solvers :=
  ⟨⟨true, [1, 2, 3], [[1, 0, 0], [0, 1, 0], [0, 0, 1]]⟩,
   fun _ => ⟨true, 2, [1, 5], [[1, 0, 0], [0, 1, 0]]⟩⟩

/-! ### Helper lemmas on the call traces -/

/-- Every solver call recorded by the `SymmetricMatrix.hpp` revision is
either the dense call or the one Spectra call built by `spectraParamsOf`. -/
theorem calls_hpp_are (s : Solvers) (n k : Nat) (pM pV pE : Bool)
    (buf : Buffers) (eps : ℚ) :
    ∀ c ∈ (getEigen_hpp s n k pM pV pE buf eps).calls,
      c = SolverCall.exact ∨ c = SolverCall.spectra (spectraParamsOf n k eps) := by
  intro c hc
  unfold getEigen_hpp at hc
  repeat' split at hc
  all_goals simp_all

/-- Every solver call recorded by the `part_001` revision is either the
dense call or the one Spectra call built by `spectraParamsOf`. -/
theorem calls_part001_are (s : Solvers) (n k : Nat) (pM pV pE : Bool)
    (buf : Buffers) (eps : ℚ) :
    ∀ c ∈ (getEigen_part001 s n k pM pV pE buf eps).calls,
      c = SolverCall.exact ∨ c = SolverCall.spectra (spectraParamsOf n k eps) := by
  intro c hc
  unfold getEigen_part001 denseBlock_part001 at hc
  repeat' split at hc
  all_goals simp_all
  all_goals tauto

/-! ### Claims -/

/-- C2: if `pMatrix`, `pEigenValue` or `pEigenVector` is null, or
`dwMaxRange = 0`, or `dwDimension = 0`, or `dwMaxRange > dwDimension`, then
`GetEigen` returns failure with the output buffers untouched and an empty
solver trace: neither the dense nor the iterative eigensolver is invoked and
no numerical work happens before the validation checks (shown for the
`SymmetricMatrix.hpp` and `part_001` revisions). -/
theorem C2_invalid_arguments_fail_without_solvers
    (s : Solvers) (n k : Nat) (pM pV pE : Bool) (buf : Buffers) (eps : ℚ)
    (hbad : pM = false ∨ pV = false ∨ pE = false ∨ k = 0 ∨ n = 0 ∨ n < k) :
    getEigen_hpp s n k pM pV pE buf eps = ⟨false, buf, []⟩ ∧
    getEigen_part001 s n k pM pV pE buf eps = ⟨false, buf, []⟩ := by
  have hnum : (pM = false ∨ pV = false ∨ pE = false) ∨ (n < k ∨ k = 0 ∨ n = 0) := by
    tauto
  constructor
  · unfold getEigen_hpp
    split
    · rfl
    · split
      · rfl
      · rename_i h1 h2
        exact absurd hnum (by simp [h1, h2])
  · unfold getEigen_part001
    split
    · rfl
    · split
      · rfl
      · rename_i h1 h2
        exact absurd hnum (by simp [h1, h2])

theorem C2_witness :
    getEigen_hpp solversSpectraFail 3 4 true true true bufEx 0 = ⟨false, bufEx, []⟩ ∧
    getEigen_part001 solversSpectraFail 3 4 true true true bufEx 0 = ⟨false, bufEx, []⟩ :=
  C2_invalid_arguments_fail_without_solvers solversSpectraFail 3 4 true true true
    bufEx 0 (by decide)

/-- C4: with valid arguments and the full spectrum requested (`k = n`),
`GetEigen` invokes the dense (Exact) solver exactly once and never invokes
the iterative (Spectra) solver, in both the `SymmetricMatrix.hpp` and
`part_002` revisions. -/
theorem C4_full_spectrum_uses_exact_only
    (s : Solvers) (n k : Nat) (pM pV pE : Bool) (buf : Buffers) (eps : ℚ)
    (hv : validArgs n k pM pV pE) (hkn : k = n) :
    (getEigen_hpp s n k pM pV pE buf eps).calls = [SolverCall.exact] ∧
    (getEigen_part002 s n k pM pV pE buf eps).calls = [SolverCall.exact] := by
  obtain ⟨h1, h2, h3, h4, h5⟩ := hv
  constructor
  · unfold getEigen_hpp
    repeat' split
    all_goals first | rfl | simp_all
  · unfold getEigen_part002
    repeat' split
    all_goals first | rfl | simp_all

theorem C4_witness :
    (getEigen_hpp solversSpectraFail 2 2 true true true bufEx 0).calls =
      [SolverCall.exact] ∧
    (getEigen_part002 solversSpectraFail 2 2 true true true bufEx 0).calls =
      [SolverCall.exact] :=
  C4_full_spectrum_uses_exact_only solversSpectraFail 2 2 true true true bufEx 0
    (by decide) rfl

/-- C10: whenever `GetEigen` returns failure, the caller-supplied output
buffers are left exactly as they were — eigenvalues and eigenvectors are
stored only on paths that return success — in the `SymmetricMatrix.hpp`,
`part_001` and `part_002` revisions. -/
theorem C10_failure_leaves_buffers_unwritten
    (s : Solvers) (n k : Nat) (pM pV pE : Bool) (buf : Buffers) (eps : ℚ) :
    ((getEigen_hpp s n k pM pV pE buf eps).success = false →
      (getEigen_hpp s n k pM pV pE buf eps).buffers = buf) ∧
    ((getEigen_part001 s n k pM pV pE buf eps).success = false →
      (getEigen_part001 s n k pM pV pE buf eps).buffers = buf) ∧
    ((getEigen_part002 s n k pM pV pE buf eps).success = false →
      (getEigen_part002 s n k pM pV pE buf eps).buffers = buf) := by
  refine ⟨?_, ?_, ?_⟩
  · unfold getEigen_hpp
    repeat' split
    all_goals simp
  · unfold getEigen_part001 denseBlock_part001
    repeat' split
    all_goals simp
  · unfold getEigen_part002
    repeat' split
    all_goals simp

theorem C10_witness :
    (getEigen_hpp solversSpectraFail 2 1 true true true bufEx 0).buffers = bufEx ∧
    (getEigen_part001 solversSpectraFail 0 0 true true true bufEx 0).buffers = bufEx ∧
    (getEigen_part002 solversSpectraFail 0 0 true true true bufEx 0).buffers = bufEx :=
  ⟨(C10_failure_leaves_buffers_unwritten solversSpectraFail 2 1 true true true
      bufEx 0).1 (by decide),
   (C10_failure_leaves_buffers_unwritten solversSpectraFail 0 0 true true true
      bufEx 0).2.1 (by decide),
   (C10_failure_leaves_buffers_unwritten solversSpectraFail 0 0 true true true
      bufEx 0).2.2 (by decide)⟩

/-- C1 counterexample: in the `SymmetricMatrix.hpp` revision, a call with
valid arguments and `k = 1 < 2 = n` whose iterative (Spectra) attempt fails
to converge returns failure WITHOUT falling back to the dense (Exact)
solver, even though the dense solver would have succeeded: the dense solver
is never invoked and the Spectra convergence failure surfaces to the caller,
contradicting the claimed fallback policy. -/
theorem C1_counterexample :
    validArgs 2 1 true true true ∧
    (getEigen_hpp solversSpectraFail 2 1 true true true bufEx
        epsilonDefault).success = false ∧
    SolverCall.exact ∉
      (getEigen_hpp solversSpectraFail 2 1 true true true bufEx
        epsilonDefault).calls ∧
    solversSpectraFail.dense.success = true := by decide

/-- C1 (amended): in the `part_001` revision, for every call with valid
arguments and `k < n`, the iterative (Spectra) solver is attempted first;
if that attempt is rejected the dense (Exact) solver is run exactly once
after it, and the call returns failure only if the dense solver also fails
(in the `SymmetricMatrix.hpp` revision, by contrast, a Spectra rejection
returns failure directly with no fallback). -/
theorem C1_part001_spectra_first_exact_fallback
    (s : Solvers) (n k : Nat) (pM pV pE : Bool) (buf : Buffers) (eps : ℚ)
    (hv : validArgs n k pM pV pE) (hkn : k < n) :
    ((getEigen_part001 s n k pM pV pE buf eps).calls.head? =
      some (SolverCall.spectra (spectraParamsOf n k eps))) ∧
    ((getEigen_part001 s n k pM pV pE buf eps).success = false →
      s.dense.success = false ∧
      (getEigen_part001 s n k pM pV pE buf eps).calls =
        [SolverCall.spectra (spectraParamsOf n k eps), SolverCall.exact]) ∧
    (s.dense.success = true →
      (getEigen_part001 s n k pM pV pE buf eps).success = true) := by
  obtain ⟨h1, h2, h3, h4, h5⟩ := hv
  unfold getEigen_part001 denseBlock_part001
  repeat' split
  all_goals simp_all
  all_goals omega

theorem C1_part001_spectra_first_exact_fallback_witness :
    ((getEigen_part001 solversSpectraFail 2 1 true true true bufEx
        epsilonDefault).calls.head? =
      some (SolverCall.spectra (spectraParamsOf 2 1 epsilonDefault))) ∧
    ((getEigen_part001 solversSpectraFail 2 1 true true true bufEx
        epsilonDefault).success = false →
      solversSpectraFail.dense.success = false ∧
      (getEigen_part001 solversSpectraFail 2 1 true true true bufEx
        epsilonDefault).calls =
        [SolverCall.spectra (spectraParamsOf 2 1 epsilonDefault),
         SolverCall.exact]) ∧
    (solversSpectraFail.dense.success = true →
      (getEigen_part001 solversSpectraFail 2 1 true true true bufEx
        epsilonDefault).success = true) :=
  C1_part001_spectra_first_exact_fallback solversSpectraFail 2 1 true true true
    bufEx epsilonDefault (by decide) (by decide)

/-- C3 counterexample: in the `SymmetricMatrix.hpp` revision, an iterative
attempt that reports an overall success status but only 1 converged pair
(fewer than the requested `k = 2`) makes the whole call fail — the rejected
attempt is a hard error that surfaces to the caller, with no dense solver
invocation — contradicting "classified as non-convergence rather than a
hard error". -/
theorem C3_counterexample :
    validArgs 3 2 true true true ∧
    (solversFewConverged.spectra (spectraParamsOf 3 2 epsilonDefault)).numConverged
      = 1 ∧
    (solversFewConverged.spectra (spectraParamsOf 3 2 epsilonDefault)).infoSuccessful
      = true ∧
    solversFewConverged.dense.success = true ∧
    (getEigen_hpp solversFewConverged 3 2 true true true bufEx
        epsilonDefault).success = false ∧
    SolverCall.exact ∉
      (getEigen_hpp solversFewConverged 3 2 true true true bufEx
        epsilonDefault).calls := by decide

/-- C3 (amended): in the `part_001` revision, for valid arguments with
`k < n` and under the iterative solver's contract that at most the requested
`k` pairs are reported converged, the Spectra attempt is accepted — the call
succeeds with the Spectra output after that single Spectra invocation — if
and only if the solver reports exactly `k` converged pairs together with an
overall success status; any other outcome triggers the dense fallback rather
than an immediate error (in the `SymmetricMatrix.hpp` revision the same
acceptance test applies but rejection fails the call directly). -/
theorem C3_part001_accept_iff_exactly_k
    (s : Solvers) (n k : Nat) (pM pV pE : Bool) (buf : Buffers) (eps : ℚ)
    (hv : validArgs n k pM pV pE) (hkn : k < n)
    (hcontract : (s.spectra (spectraParamsOf n k eps)).numConverged ≤ k) :
    (((getEigen_part001 s n k pM pV pE buf eps).success = true ∧
      (getEigen_part001 s n k pM pV pE buf eps).calls =
        [SolverCall.spectra (spectraParamsOf n k eps)]) ↔
      ((s.spectra (spectraParamsOf n k eps)).numConverged = k ∧
       (s.spectra (spectraParamsOf n k eps)).infoSuccessful = true)) ∧
    (¬((s.spectra (spectraParamsOf n k eps)).numConverged = k ∧
       (s.spectra (spectraParamsOf n k eps)).infoSuccessful = true) →
      SolverCall.exact ∈ (getEigen_part001 s n k pM pV pE buf eps).calls) := by
  obtain ⟨h1, h2, h3, h4, h5⟩ := hv
  unfold getEigen_part001 denseBlock_part001
  repeat' split
  all_goals simp_all
  all_goals omega

theorem C3_part001_accept_iff_exactly_k_witness :
    (((getEigen_part001 solversSpectraOK 2 1 true true true bufEx
          epsilonDefault).success = true ∧
      (getEigen_part001 solversSpectraOK 2 1 true true true bufEx
          epsilonDefault).calls =
        [SolverCall.spectra (spectraParamsOf 2 1 epsilonDefault)]) ↔
      ((solversSpectraOK.spectra (spectraParamsOf 2 1 epsilonDefault)).numConverged
          = 1 ∧
       (solversSpectraOK.spectra (spectraParamsOf 2 1 epsilonDefault)).infoSuccessful
          = true)) ∧
    (¬((solversSpectraOK.spectra (spectraParamsOf 2 1 epsilonDefault)).numConverged
          = 1 ∧
       (solversSpectraOK.spectra (spectraParamsOf 2 1 epsilonDefault)).infoSuccessful
          = true) →
      SolverCall.exact ∈
        (getEigen_part001 solversSpectraOK 2 1 true true true bufEx
          epsilonDefault).calls) :=
  C3_part001_accept_iff_exactly_k solversSpectraOK 2 1 true true true bufEx
    epsilonDefault (by decide) (by decide) (by decide)

/-- C7: every parameter record handed to the iterative Spectra solver by the
`SymmetricMatrix.hpp` or `part_001` revision has subspace size
`ncv = min(2k, n)` where `k = dwMaxRange` and `n = dwDimension`. -/
theorem C7_spectra_subspace_is_min_2k_n
    (s : Solvers) (n k : Nat) (pM pV pE : Bool) (buf : Buffers) (eps : ℚ)
    (p : SpectraParams)
    (h : SolverCall.spectra p ∈ (getEigen_hpp s n k pM pV pE buf eps).calls ∨
         SolverCall.spectra p ∈ (getEigen_part001 s n k pM pV pE buf eps).calls) :
    p.ncv = min (2 * k) n := by
  have hp : p = spectraParamsOf n k eps := by
    rcases h with h | h
    · rcases calls_hpp_are s n k pM pV pE buf eps _ h with h' | h' <;> simp_all
    · rcases calls_part001_are s n k pM pV pE buf eps _ h with h' | h' <;> simp_all
  subst hp
  simp only [spectraParamsOf]
  omega

theorem C7_spectra_subspace_is_min_2k_n_witness :
    (spectraParamsOf 2 1 (0 : ℚ)).ncv = min (2 * 1) 2 :=
  C7_spectra_subspace_is_min_2k_n solversSpectraFail 2 1 true true true bufEx 0
    (spectraParamsOf 2 1 (0 : ℚ)) (Or.inl (by decide))

/-- C8: every parameter record handed to the iterative Spectra solver by the
`SymmetricMatrix.hpp` revision carries the iteration cap 1000 (the function's
`constexpr int maxIterations = 1000`; `GetEigen` exposes no caller-facing
iteration-cap parameter, so this spec default is always in effect) and the
convergence tolerance equal to the call's `epsilon` argument, whose declared
default value is `1e-10`. -/
theorem C8_spectra_cap_1000_and_tolerance_epsilon
    (s : Solvers) (n k : Nat) (pM pV pE : Bool) (buf : Buffers) (eps : ℚ)
    (p : SpectraParams)
    (h : SolverCall.spectra p ∈ (getEigen_hpp s n k pM pV pE buf eps).calls) :
    p.maxIterations = 1000 ∧ p.epsilon = eps ∧ epsilonDefault = 1 / 10 ^ 10 := by
  have hp : p = spectraParamsOf n k eps := by
    rcases calls_hpp_are s n k pM pV pE buf eps _ h with h' | h' <;> simp_all
  subst hp
  exact ⟨rfl, rfl, rfl⟩

theorem C8_spectra_cap_1000_and_tolerance_epsilon_witness :
    (spectraParamsOf 2 1 (0 : ℚ)).maxIterations = 1000 ∧
    (spectraParamsOf 2 1 (0 : ℚ)).epsilon = 0 ∧
    epsilonDefault = 1 / 10 ^ 10 :=
  C8_spectra_cap_1000_and_tolerance_epsilon solversSpectraFail 2 1 true true
    true bufEx 0 (spectraParamsOf 2 1 (0 : ℚ)) (by decide)

/-- Reversing a list sorted ascending yields one sorted descending. -/
theorem sorted_ge_reverse_of_sorted_le (l : List ℚ)
    (h : List.Sorted (· ≤ ·) l) : List.Sorted (· ≥ ·) l.reverse := by
  rw [List.Sorted, List.pairwise_reverse]
  exact h.imp fun hab => hab

/-- A prefix of a list sorted descending is sorted descending. -/
theorem sorted_ge_take (l : List ℚ) (k : Nat)
    (h : List.Sorted (· ≥ ·) l) : List.Sorted (· ≥ ·) (l.take k) :=
  h.sublist (List.take_sublist k l)

/-- C5: when the dense (Exact) solver succeeds — returning, per its
contract, all `n` eigenvalues (ascending) with paired eigenvector columns —
the result `GetEigen` writes is the reverse of the value sequence truncated
to its first `k` entries, with the columns reversed and truncated in step:
output value `i` is ascending value `n-1-i` and output column `i` is
ascending column `n-1-i` for every `i < k`.  Shown for the `part_000`
revision and for the `part_001` revision when the iterative attempt does not
succeed. -/
theorem C5_exact_result_is_reverse_truncation
    (s : Solvers) (n k : Nat) (pM pV pE : Bool) (buf : Buffers) (eps : ℚ)
    (hv : validArgs n k pM pV pE)
    (hs : s.dense.success = true)
    (hlv : s.dense.values.length = n)
    (hlc : s.dense.vectors.length = n)
    (hrej : ∀ q, (s.spectra q).infoSuccessful = false) :
    (getEigen_part000 s n k pM pV pE buf).success = true ∧
    (getEigen_part000 s n k pM pV pE buf).buffers =
      ⟨s.dense.values.reverse.take k, s.dense.vectors.reverse.take k⟩ ∧
    (getEigen_part001 s n k pM pV pE buf eps).buffers =
      ⟨s.dense.values.reverse.take k, s.dense.vectors.reverse.take k⟩ ∧
    (∀ i, i < k →
      (getEigen_part000 s n k pM pV pE buf).buffers.values[i]? =
        s.dense.values[n - 1 - i]? ∧
      (getEigen_part000 s n k pM pV pE buf).buffers.vectors[i]? =
        s.dense.vectors[n - 1 - i]?) := by
  obtain ⟨h1, h2, h3, h4, h5⟩ := hv
  have h000 : getEigen_part000 s n k pM pV pE buf =
      ⟨true, ⟨s.dense.values.reverse.take k, s.dense.vectors.reverse.take k⟩,
       [SolverCall.exact]⟩ := by
    unfold getEigen_part000
    repeat' split
    all_goals first | rfl | omega | simp_all
  have h001 : (getEigen_part001 s n k pM pV pE buf eps).buffers =
      ⟨s.dense.values.reverse.take k, s.dense.vectors.reverse.take k⟩ := by
    unfold getEigen_part001 denseBlock_part001
    repeat' split
    all_goals first | rfl | omega | simp_all
  refine ⟨by rw [h000], by rw [h000], h001, ?_⟩
  intro i hik
  have hikv : i < s.dense.values.length := by omega
  have hikc : i < s.dense.vectors.length := by omega
  rw [h000]
  constructor
  · show (s.dense.values.reverse.take k)[i]? = s.dense.values[n - 1 - i]?
    rw [List.getElem?_take_of_lt hik,
      List.getElem?_reverse (by simpa using hikv), hlv]
  · show (s.dense.vectors.reverse.take k)[i]? = s.dense.vectors[n - 1 - i]?
    rw [List.getElem?_take_of_lt hik,
      List.getElem?_reverse (by simpa using hikc), hlc]

theorem C5_exact_result_is_reverse_truncation_witness :
    (getEigen_part000 solversSpectraFail 2 1 true true true bufEx).success
      = true ∧
    (getEigen_part000 solversSpectraFail 2 1 true true true bufEx).buffers =
      ⟨solversSpectraFail.dense.values.reverse.take 1,
       solversSpectraFail.dense.vectors.reverse.take 1⟩ ∧
    (getEigen_part001 solversSpectraFail 2 1 true true true bufEx 0).buffers =
      ⟨solversSpectraFail.dense.values.reverse.take 1,
       solversSpectraFail.dense.vectors.reverse.take 1⟩ ∧
    (∀ i, i < 1 →
      (getEigen_part000 solversSpectraFail 2 1 true true true
          bufEx).buffers.values[i]? =
        solversSpectraFail.dense.values[2 - 1 - i]? ∧
      (getEigen_part000 solversSpectraFail 2 1 true true true
          bufEx).buffers.vectors[i]? =
        solversSpectraFail.dense.vectors[2 - 1 - i]?) :=
  C5_exact_result_is_reverse_truncation solversSpectraFail 2 1 true true true
    bufEx 0 (by decide) (by decide) (by decide) (by decide) (fun _ => rfl)

/-- C6: in the `SymmetricMatrix.hpp` revision, for valid arguments and under
the external solvers' ordering contracts (the dense solver returns its
eigenvalues ascending; the iterative solver returns its eigenvalues
descending as requested via `LARGEST_ALGE`), every successful call stores a
non-increasing eigenvalue sequence, and the stored value and column
sequences are the same-index transforms of one solver's paired output (both
reversed for the dense path, both verbatim for the iterative path), so
column `i` stays paired with value `i`. -/
theorem C6_success_values_descending_paired
    (s : Solvers) (n k : Nat) (pM pV pE : Bool) (buf : Buffers) (eps : ℚ)
    (hv : validArgs n k pM pV pE)
    (hasc : List.Sorted (· ≤ ·) s.dense.values)
    (hdesc : ∀ q, List.Sorted (· ≥ ·) (s.spectra q).values)
    (hsucc : (getEigen_hpp s n k pM pV pE buf eps).success = true) :
    List.Sorted (· ≥ ·) (getEigen_hpp s n k pM pV pE buf eps).buffers.values ∧
    ((getEigen_hpp s n k pM pV pE buf eps).buffers =
        ⟨s.dense.values.reverse, s.dense.vectors.reverse⟩ ∨
      (getEigen_hpp s n k pM pV pE buf eps).buffers =
        ⟨(s.spectra (spectraParamsOf n k eps)).values,
         (s.spectra (spectraParamsOf n k eps)).vectors⟩) := by
  obtain ⟨h1, h2, h3, h4, h5⟩ := hv
  have hchar : (getEigen_hpp s n k pM pV pE buf eps).success = true →
      (getEigen_hpp s n k pM pV pE buf eps).buffers =
        ⟨s.dense.values.reverse, s.dense.vectors.reverse⟩ ∨
      (getEigen_hpp s n k pM pV pE buf eps).buffers =
        ⟨(s.spectra (spectraParamsOf n k eps)).values,
         (s.spectra (spectraParamsOf n k eps)).vectors⟩ := by
    unfold getEigen_hpp
    repeat' split
    all_goals simp_all
  refine ⟨?_, hchar hsucc⟩
  rcases hchar hsucc with hb | hb <;> rw [hb]
  · exact sorted_ge_reverse_of_sorted_le _ hasc
  · exact hdesc _

theorem C6_success_values_descending_paired_witness :
    List.Sorted (· ≥ ·)
      (getEigen_hpp solversSpectraOK 2 1 true true true bufEx 0).buffers.values ∧
    ((getEigen_hpp solversSpectraOK 2 1 true true true bufEx 0).buffers =
        ⟨solversSpectraOK.dense.values.reverse,
         solversSpectraOK.dense.vectors.reverse⟩ ∨
      (getEigen_hpp solversSpectraOK 2 1 true true true bufEx 0).buffers =
        ⟨(solversSpectraOK.spectra (spectraParamsOf 2 1 (0 : ℚ))).values,
         (solversSpectraOK.spectra (spectraParamsOf 2 1 (0 : ℚ))).vectors⟩) :=
  C6_success_values_descending_paired solversSpectraOK 2 1 true true true
    bufEx 0 (by decide) (by decide) (fun _ => List.sorted_singleton 5)
    (by decide)

/-- C9 counterexample: in the `SymmetricMatrix.hpp` revision, an iterative
attempt reporting overall success with the requested 2 converged pairs but
an eigenvalue list `[1, 5]` that is NOT sorted descending is accepted and
its values stored verbatim — the call succeeds — so the implementation does
not verify the `LARGEST_ALGE` descending-order contract before accepting;
it assumes it silently. -/
theorem C9_counterexample :
    validArgs 3 2 true true true ∧
    (getEigen_hpp solversUnsorted 3 2 true true true bufEx
        epsilonDefault).success = true ∧
    (getEigen_hpp solversUnsorted 3 2 true true true bufEx
        epsilonDefault).buffers.values = [1, 5] ∧
    ¬ List.Sorted (· ≥ ·) ([1, 5] : List ℚ) := by decide

/-- C9 (amended): in the `SymmetricMatrix.hpp` revision the iterative
attempt is accepted purely on the converged-pair count and the status flag:
whenever the solver reports at least `k` converged pairs and overall
success, the call returns success with the solver's eigenvalue and
eigenvector lists stored verbatim — there is no check that the values are
sorted descending; the `LARGEST_ALGE` ordering contract is relied on without
verification. -/
theorem C9_hpp_accepts_without_order_check
    (s : Solvers) (n k : Nat) (pM pV pE : Bool) (buf : Buffers) (eps : ℚ)
    (hv : validArgs n k pM pV pE) (hkn : k < n)
    (hacc : k ≤ (s.spectra (spectraParamsOf n k eps)).numConverged ∧
            (s.spectra (spectraParamsOf n k eps)).infoSuccessful = true) :
    getEigen_hpp s n k pM pV pE buf eps =
      ⟨true, ⟨(s.spectra (spectraParamsOf n k eps)).values,
              (s.spectra (spectraParamsOf n k eps)).vectors⟩,
       [SolverCall.spectra (spectraParamsOf n k eps)]⟩ := by
  obtain ⟨h1, h2, h3, h4, h5⟩ := hv
  obtain ⟨ha1, ha2⟩ := hacc
  unfold getEigen_hpp
  repeat' split
  all_goals first | rfl | omega | (simp_all <;> omega)

theorem C9_hpp_accepts_without_order_check_witness :
    getEigen_hpp solversUnsorted 3 2 true true true bufEx 0 =
      ⟨true, ⟨(solversUnsorted.spectra (spectraParamsOf 3 2 (0 : ℚ))).values,
              (solversUnsorted.spectra (spectraParamsOf 3 2 (0 : ℚ))).vectors⟩,
       [SolverCall.spectra (spectraParamsOf 3 2 (0 : ℚ))]⟩ :=
  C9_hpp_accepts_without_order_check solversUnsorted 3 2 true true true bufEx 0
    (by decide) (by decide) (by decide)
